import Mathlib

/-!
Verification development for the `face-pro` backend: a shallow embedding of
the session/challenge state machine, the PAD (presentation-attack-detection)
signal pipeline, the face-detector NMS post-processing, and the JSON-frame
branch of the connection handler, together with theorems settling the
behavioural claims about them.

Modelling conventions:
* Rust `u64` timestamps and counters become `Nat`; the one place where `u64`
  wrap-around semantics can matter (`ts + allow_clock_skew_ms` in
  `pad.rs::process_frame`) carries an explicit `% 2^64`.
  `u64::saturating_sub` becomes truncated `Nat` subtraction (identical).
* Rust `f32`/`f64` quantities (motion scores, detection rates, IoU, box
  coordinates) are embedded as exact rationals `ℚ`; the claims settled here
  concern the comparison/branch structure of the code, not binary rounding.
* Image decoding, the DCT perceptual hash and the grayscale downscale are
  provided by the external `image` crate; they are abstracted as the function
  fields of `PadEnv` (an arbitrary but fixed deterministic environment).
  Hamming distance over 64-bit hashes is embedded concretely.
* `VecDeque` becomes `List` (front = head, back = end of the list); the
  session `HashMap` becomes an association `List Session` whose head models
  the entry produced first by `values_mut().next()`.
* The two sources of nondeterminism in the handler (the `rand` choice of the
  next challenge kind in the telemetry arm, the nanosecond parity in the
  feedback arm) are passed in as the `rnd : Nat` oracle; the wall-clock
  reading in `analyze_challenge_buffer` is passed in as `now : Nat`.
-/

namespace FacePro

/-- Environment of externally supplied image operations (the `image` crate):
`img_decode` models `image::load_from_memory`, `phash` models
`pad.rs::phash_u64` on a decoded image, `gray` models
`pad.rs::downscale_gray`.  `Img` is the type of decoded images. -/
structure PadEnv (Img : Type) where
  img_decode : List Nat → Option Img
  phash : Img → Nat
  gray : Img → Nat → Nat → List Nat

/-- `pad.rs::PadConfig`. -/
structure PadConfig where
  replay_window_ms : Nat
  allow_clock_skew_ms : Nat
  max_recent_hashes : Nat
  duplicate_hamming_threshold : Nat
  flicker_size : Nat
  flicker_suspect_threshold : ℚ
deriving DecidableEq

/-- `pad.rs::PadConfig::default`. -/
def PadConfig.default : PadConfig :=
  { replay_window_ms := 5000
    allow_clock_skew_ms := 1000
    max_recent_hashes := 32
    duplicate_hamming_threshold := 0
    flicker_size := 32
    flicker_suspect_threshold := 1/5 }

/-- `pad.rs::PadState`; `recent_hashes` is the `VecDeque<(u64, u64)>` of
`(hash, ts)` pairs with the front at the head of the list. -/
structure PadState where
  last_ts : Option Nat
  recent_hashes : List (Nat × Nat)
  last_small_gray : Option (List Nat)
deriving DecidableEq

/-- `pad.rs::PadState::default`. -/
def PadState.default : PadState :=
  { last_ts := none, recent_hashes := [], last_small_gray := none }

/-- `pad.rs::PadSignals`. -/
structure PadSignals where
  suspected_replay : Bool
  duplicate_hash : Bool
  flicker : ℚ
deriving DecidableEq

/-- Number of set bits of a natural number (`u64::count_ones` on the xor
result is applied only to values below `2^64`). -/
def popCount (n : Nat) : Nat :=
  if n = 0 then 0 else n % 2 + popCount (n / 2)
decreasing_by exact Nat.div_lt_self (Nat.pos_of_ne_zero (by assumption)) (by omega)

/-- `pad.rs::hamming_distance_u64`: `(a ^ b).count_ones()`. -/
def hamming_distance_u64 (a b : Nat) : Nat :=
  popCount (a ^^^ b)

/-- The `suspected_replay` computation at the top of `pad.rs::process_frame`:
flagged iff a previous timestamp exists and `ts + allow_clock_skew_ms < prev`
(the addition is a `u64` addition, hence the explicit wrap). -/
def replay_flag (config : PadConfig) (last_ts : Option Nat) (ts : Nat) : Bool :=
  match last_ts with
  | some prev => decide ((ts + config.allow_clock_skew_ms) % 2 ^ 64 < prev)
  | none => false

/-- The flicker accumulation loop of `pad.rs::process_frame`: mean over the
common prefix of `|prev[i] - small[i]| / 255`. -/
def flicker_score (prev small : List Nat) : ℚ :=
  let len := min prev.length small.length
  if 0 < len then
    (((prev.zip small).map (fun p => ((Int.natAbs ((p.1 : Int) - (p.2 : Int)) : ℚ) / 255))).foldl
      (· + ·) 0) / (len : ℚ)
  else 0

/-- `pad.rs::process_frame`.  Returns the updated state together with the
emitted `PadSignals`.  The hash-ring eviction `while` loop is `dropWhile`
on the front of the deque; `push_back` appends; the size cap pops one entry
from the front when the length exceeds `max_recent_hashes`. -/
def process_frame {Img : Type} (env : PadEnv Img) (config : PadConfig)
    (state : PadState) (ts : Nat) (bytes : List Nat) : PadState × PadSignals :=
  let suspected_replay := replay_flag config state.last_ts ts
  let state := { state with last_ts := some ts }
  match env.img_decode bytes with
  | none => (state, ⟨suspected_replay, false, 0⟩)
  | some img =>
    let hash := env.phash img
    let ring := state.recent_hashes.dropWhile
      (fun e => decide (config.replay_window_ms < ts - e.2))
    let duplicate_hash := ring.any
      (fun e => decide (hamming_distance_u64 e.1 hash ≤ config.duplicate_hamming_threshold))
    let ring := ring ++ [(hash, ts)]
    let ring := if config.max_recent_hashes < ring.length then ring.drop 1 else ring
    let small := env.gray img config.flicker_size config.flicker_size
    let flicker := match state.last_small_gray with
      | some prev => flicker_score prev small
      | none => 0
    ({ state with recent_hashes := ring, last_small_gray := some small },
      ⟨suspected_replay, duplicate_hash, flicker⟩)

/-- Folding `process_frame` over a list of `(ts, bytes)` calls, keeping the
state (one session's PAD stream). -/
def run_pad {Img : Type} (env : PadEnv Img) (config : PadConfig)
    (state : PadState) (calls : List (Nat × List Nat)) : PadState :=
  calls.foldl (fun st c => (process_frame env config st c.1 c.2).1) state

end FacePro

namespace FacePro

/-- `infer/mod.rs::FaceBox` (coordinates and score as exact rationals). -/
structure FaceBox where
  x1 : ℚ
  y1 : ℚ
  x2 : ℚ
  y2 : ℚ
  score : ℚ
deriving DecidableEq

/-- `infer/mod.rs::FaceBox::area`. -/
def FaceBox.area (b : FaceBox) : ℚ :=
  let w := max (b.x2 - b.x1) 0
  let h := max (b.y2 - b.y1) 0
  w * h

/-- `infer/mod.rs::intersection_over_union`. -/
def intersection_over_union (a b : FaceBox) : ℚ :=
  let x1 := max a.x1 b.x1
  let y1 := max a.y1 b.y1
  let x2 := min a.x2 b.x2
  let y2 := min a.y2 b.y2
  let w := max (x2 - x1) 0
  let h := max (y2 - y1) 0
  let inter := w * h
  if inter ≤ 0 then 0
  else
    let union := a.area + b.area - inter
    if union ≤ 0 then 0 else inter / union

/-- Stable insertion step for sorting by descending score: an element is
placed before the first element of not-larger score, matching the stable
`Vec::sort_by(|a, b| b.score.total_cmp(&a.score))`. -/
def insert_desc (x : FaceBox) : List FaceBox → List FaceBox
  | [] => [x]
  | a :: t => if a.score ≤ x.score then x :: a :: t else a :: insert_desc x t

/-- Stable sort by descending score (`boxes.sort_by(|a, b| b.score.total_cmp(&a.score))`). -/
def sort_by_score_desc (l : List FaceBox) : List FaceBox :=
  l.foldr insert_desc []

/-- The `while let Some(candidate) = boxes.pop()` loop of
`infer/mod.rs::non_max_suppression`.  `Vec::pop` removes from the BACK of the
descending-sorted vector, so the candidates argument here is the reverse of
the sorted list; kept candidates are pushed to the end of `selected`. -/
def nms_pop_loop (iou_threshold : ℚ) : List FaceBox → List FaceBox → List FaceBox
  | selected, [] => selected
  | selected, candidate :: rest =>
    let keep := selected.all (fun s => decide (intersection_over_union candidate s < iou_threshold))
    nms_pop_loop iou_threshold (if keep then selected ++ [candidate] else selected) rest

/-- `infer/mod.rs::non_max_suppression`: sort descending by score, then pop
candidates from the back of the vector (i.e. in ascending score order). -/
def non_max_suppression (boxes : List FaceBox) (iou_threshold : ℚ) : List FaceBox :=
  if boxes.isEmpty then boxes
  else nms_pop_loop iou_threshold [] (sort_by_score_desc boxes).reverse

end FacePro

namespace FacePro

/-- `protocol.rs::ChallengeKind`. -/
inductive ChallengeKind where
  | Blink
  | OpenMouth
  | TurnLeft
  | TurnRight
  | HeadUp
  | HeadDown
deriving DecidableEq

/-- `main.rs::FsmState`. -/
inductive FsmState where
  | Idle
  | Prompting (challenge_id : String) (kind : ChallengeKind)
  | Passed
  | Failed
deriving DecidableEq

/-- `main.rs::SessionFsm`. -/
structure SessionFsm where
  state : FsmState
  completed : Nat
  failed : Nat
deriving DecidableEq

/-- `main.rs::SessionFsm::new`. -/
def SessionFsm.new : SessionFsm :=
  { state := FsmState.Idle, completed := 0, failed := 0 }

/-- `main.rs::SessionMetrics` (the optional `p95_rtt_ms` is never written by
the handler and is omitted). -/
structure SessionMetrics where
  frames_received : Nat
  throttled : Nat
deriving DecidableEq

/-- `main.rs::TelemetryState`. -/
structure TelemetryState where
  last_cx : Option ℚ
  last_w : Option ℚ
  turn_left_hits : Nat
  turn_right_hits : Nat
  motion_hits : Nat
  motion_scores : List ℚ
  face_positions : List (ℚ × ℚ)
deriving DecidableEq

/-- `TelemetryState::default`. -/
def TelemetryState.default : TelemetryState :=
  { last_cx := none, last_w := none, turn_left_hits := 0, turn_right_hits := 0
    motion_hits := 0, motion_scores := [], face_positions := [] }

/-- `main.rs::TelemetryState::reset`. -/
def TelemetryState.reset (_t : TelemetryState) : TelemetryState :=
  TelemetryState.default

/-- `main.rs::TelemetryState::add_motion_score`: push, then keep only the
last 30 scores. -/
def TelemetryState.add_motion_score (t : TelemetryState) (score : ℚ) : TelemetryState :=
  let scores := t.motion_scores ++ [score]
  let scores := if 30 < scores.length then scores.drop 1 else scores
  { t with motion_scores := scores }

/-- `main.rs::TelemetryState::add_face_position`: push, then keep only the
last 30 positions. -/
def TelemetryState.add_face_position (t : TelemetryState) (x y : ℚ) : TelemetryState :=
  let ps := t.face_positions ++ [(x, y)]
  let ps := if 30 < ps.length then ps.drop 1 else ps
  { t with face_positions := ps }

/-- `main.rs::TelemetryState::has_significant_motion`: over the last 10
scores, the max must exceed both `0.05` and three times the mean. -/
def TelemetryState.has_significant_motion (t : TelemetryState) : Bool :=
  if t.motion_scores.length < 10 then false
  else
    let recent := t.motion_scores.drop (t.motion_scores.length - 10)
    let max_score := recent.foldl (fun acc x => max acc x) 0
    let avg_score := recent.foldl (· + ·) 0 / (recent.length : ℚ)
    decide ((1/20 : ℚ) < max_score ∧ avg_score * 3 < max_score)

/-- `main.rs::TelemetryState::has_facial_motion`: over the last 15 scores,
mean above `0.04` and at least 8 scores above `0.03`. -/
def TelemetryState.has_facial_motion (t : TelemetryState) : Bool :=
  if t.motion_scores.length < 15 then false
  else
    let recent := t.motion_scores.drop (t.motion_scores.length - 15)
    let avg_motion := recent.foldl (· + ·) 0 / (recent.length : ℚ)
    decide ((1/25 : ℚ) < avg_motion) &&
      decide (8 ≤ (recent.filter (fun x => decide ((3/100 : ℚ) < x))).length)

/-- `main.rs::TelemetryState::validate_turn_movement`: with at least 20
recorded positions, the horizontal displacement from first to last exceeds 15. -/
def TelemetryState.validate_turn_movement (t : TelemetryState) : Bool :=
  if t.face_positions.length < 20 then false
  else
    let start_pos := t.face_positions.headD (0, 0)
    let end_pos := t.face_positions.getLastD (0, 0)
    decide ((15 : ℚ) < |end_pos.1 - start_pos.1|)

/-- `main.rs::TelemetryState::validate_head_movement`: with at least 20
recorded positions, the vertical displacement from first to last exceeds 10. -/
def TelemetryState.validate_head_movement (t : TelemetryState) : Bool :=
  if t.face_positions.length < 20 then false
  else
    let start_pos := t.face_positions.headD (0, 0)
    let end_pos := t.face_positions.getLastD (0, 0)
    decide ((10 : ℚ) < |end_pos.2 - start_pos.2|)

/-- `protocol.rs::ChallengeFrameData`, restricted to the fields the analyzer
reads (`face_present`, `motion_score`, `landmarks.is_some()`); `timestamp`,
`frame_id`, `image_data`, `ahash`, `face_box` and `telemetry` are never read
by the embedded operations. -/
structure ChallengeFrameData where
  face_present : Option Bool
  motion_score : Option ℚ
  landmarks : Option Unit
deriving DecidableEq

/-- `main.rs::ChallengeBufferState`. -/
structure ChallengeBufferState where
  attempt_id : String
  challenge_id : String
  challenge_type : String
  start_time : Nat
  frames : List ChallengeFrameData
  total_expected_frames : Nat
  received_batches : Nat
  gesture_detected : Bool
deriving DecidableEq

/-- `main.rs::Session` (the serialization-only `id`/`token` split is kept). -/
structure Session where
  id : String
  token : String
  metrics : SessionMetrics
  fsm : SessionFsm
  pad_state : PadState
  tele : TelemetryState
  challenge_buffer : Option ChallengeBufferState
  current_attempt_id : String
deriving DecidableEq

/-- `protocol.rs::Decision`. -/
structure Decision where
  passed : Bool
  reason : Option String
deriving DecidableEq

/-- `protocol.rs::ChallengeAnalysis`. -/
structure ChallengeAnalysis where
  total_frames : Nat
  frames_with_face : Nat
  frames_with_landmarks : Nat
  average_motion_score : ℚ
  face_detection_rate : ℚ
  gesture_confidence : ℚ
  processing_time_ms : Nat
  quality_score : ℚ
deriving DecidableEq

/-- `protocol.rs::FrameMessage` (without `hints`, which the handler ignores). -/
structure FrameMessage where
  ts : Nat
  format : String
  data : Option String
deriving DecidableEq

/-- `protocol.rs::TelemetryMessage`, restricted to the only field the handler
reads (`motion_score`). -/
structure TelemetryMessage where
  motion_score : Option ℚ
deriving DecidableEq

/-- `protocol.rs::FeedbackMessage`, restricted to the fields the handler
reads (`status`, `kind`, `ok`). -/
structure FeedbackMessage where
  status : Option String
  kind : Option ChallengeKind
  ok : Option Bool
deriving DecidableEq

/-- `protocol.rs::ChallengeStartMessage` (the unread `completion_time` is
omitted). -/
structure ChallengeStartMessage where
  attempt_id : String
  challenge_id : String
  challenge_type : String
  start_time : Nat
  total_frames : Nat
  gesture_detected : Bool
deriving DecidableEq

/-- `protocol.rs::ChallengeFrameBatchMessage`. -/
structure ChallengeFrameBatchMessage where
  attempt_id : String
  challenge_id : String
  batch_index : Nat
  frames : List ChallengeFrameData
deriving DecidableEq

/-- `protocol.rs::ChallengeEndMessage`. -/
structure ChallengeEndMessage where
  attempt_id : String
  challenge_id : String
  timestamp : Nat
deriving DecidableEq

/-- `protocol.rs::ClientMessage` (the `hello` payload beyond ids is dropped;
it is ignored inside the message loop). -/
inductive ClientMessage where
  | hello (session_id token : String)
  | frame (f : FrameMessage)
  | telemetry (t : TelemetryMessage)
  | feedback (f : FeedbackMessage)
  | challengeStart (c : ChallengeStartMessage)
  | challengeFrameBatch (b : ChallengeFrameBatchMessage)
  | challengeEnd (e : ChallengeEndMessage)

/-- `protocol.rs::ServerMessage` as emitted by the handler (the `face` field
of `frameAck` is always `None` in the non-onnx build modelled here and is
omitted). -/
inductive ServerMsg where
  | helloAck
  | error (code message : String)
  | throttle (reason : String) (max_fps : Nat)
  | prompt (id : String) (kind : ChallengeKind) (timeout_ms : Nat) (attempt_id : String)
  | result (attempt_id : String) (decision : Decision)
  | frameAck (ts : Nat) (rtt_ms : Option Nat) (pad : Option PadSignals)
  | challengeResult (attempt_id challenge_id : String) (decision : Decision)
      (analysis : ChallengeAnalysis)
deriving DecidableEq

end FacePro

namespace FacePro

/-- `main.rs::analyze_challenge_buffer`; `now` is the wall-clock millisecond
reading (`SystemTime::now`), used only for `processing_time_ms`. -/
def analyze_challenge_buffer (now : Nat) (buffer : ChallengeBufferState) : ChallengeAnalysis :=
  let total_frames := buffer.frames.length
  let frames_with_face := (buffer.frames.filter (fun f => f.face_present.getD false)).length
  let frames_with_landmarks := (buffer.frames.filter (fun f => f.landmarks.isSome)).length
  let average_motion_score : ℚ :=
    if 0 < total_frames then
      ((buffer.frames.filterMap (fun f => f.motion_score)).foldl (· + ·) 0) / (total_frames : ℚ)
    else 0
  let face_detection_rate : ℚ :=
    if 0 < total_frames then (frames_with_face : ℚ) / (total_frames : ℚ) else 0
  let gesture_confidence : ℚ :=
    if buffer.gesture_detected then
      let quality_score := face_detection_rate * (3/5) + average_motion_score * (2/5)
      (min (quality_score * 100) 95) / 100
    else 0
  let processing_time_ms := now - buffer.start_time
  let quality_score := face_detection_rate * (7/10) + average_motion_score * (3/10)
  { total_frames := total_frames
    frames_with_face := frames_with_face
    frames_with_landmarks := frames_with_landmarks
    average_motion_score := average_motion_score
    face_detection_rate := face_detection_rate
    gesture_confidence := gesture_confidence
    processing_time_ms := processing_time_ms
    quality_score := quality_score }

/-- `main.rs::make_challenge_decision`: pass iff face-detection rate `≥ 0.7`,
quality score `≥ 0.6`, at least 10 frames, and the client-reported gesture
flag; the failure reason is picked by the first unmet criterion in that
order. -/
def make_challenge_decision (buffer : ChallengeBufferState)
    (analysis : ChallengeAnalysis) : Decision :=
  let min_face_detection_rate : ℚ := 7/10
  let min_quality_score : ℚ := 3/5
  let min_frames : Nat := 10
  let face_ok := decide (min_face_detection_rate ≤ analysis.face_detection_rate)
  let quality_ok := decide (min_quality_score ≤ analysis.quality_score)
  let frames_ok := decide (min_frames ≤ analysis.total_frames)
  let gesture_ok := buffer.gesture_detected
  let passed := face_ok && quality_ok && frames_ok && gesture_ok
  let reason : Option String :=
    if passed then none
    else if !face_ok then some "Taxa de detecção facial muito baixa"
    else if !quality_ok then some "Qualidade dos dados insuficiente"
    else if !frames_ok then some "Número insuficiente de frames"
    else if !gesture_ok then some "Gesto não detectado"
    else some "Critérios não atendidos"
  { passed := passed, reason := reason }

/-- The four-kind pool used for the next prompt
(`vec![OpenMouth, TurnLeft, TurnRight, HeadUp]`). -/
def challenge_pool : List ChallengeKind :=
  [ChallengeKind.OpenMouth, ChallengeKind.TurnLeft, ChallengeKind.TurnRight,
    ChallengeKind.HeadUp]

end FacePro

namespace FacePro

/-- The `ClientMessage::Telemetry` arm of `main.rs::handle_socket`
(lines 401–496).  `rnd` resolves the `rand::thread_rng` pick of the next
challenge kind (`all.choose(&mut rng)` becomes indexing with `rnd`).  The
returned `Bool` is whether the loop is left afterwards (never, for this arm). -/
def process_telemetry (rnd : Nat) (s : Session) (tel : TelemetryMessage) :
    Session × List ServerMsg × Bool :=
  let s :=
    match tel.motion_score with
    | some ms =>
      let tele := s.tele.add_motion_score ms
      let tele :=
        if (1/50 : ℚ) ≤ ms then { tele with motion_hits := tele.motion_hits + 1 } else tele
      { s with tele := tele }
    | none => s
  match s.fsm.state with
  | FsmState.Prompting _challenge_id kind =>
    let ok :=
      match kind with
      | ChallengeKind.Blink =>
        decide (10 ≤ s.tele.motion_hits) && s.tele.has_significant_motion
      | ChallengeKind.OpenMouth =>
        decide (15 ≤ s.tele.motion_hits) && s.tele.has_facial_motion
      | ChallengeKind.TurnLeft =>
        decide (20 ≤ s.tele.motion_hits) && s.tele.validate_turn_movement
      | ChallengeKind.TurnRight =>
        decide (20 ≤ s.tele.motion_hits) && s.tele.validate_turn_movement
      | ChallengeKind.HeadUp =>
        decide (25 ≤ s.tele.motion_hits) && s.tele.validate_head_movement
      | ChallengeKind.HeadDown =>
        decide (25 ≤ s.tele.motion_hits) && s.tele.validate_head_movement
    if ok then
      let completed := s.fsm.completed + 1
      let s := { s with fsm := { s.fsm with completed := completed }, tele := s.tele.reset }
      if 3 ≤ completed then
        -- `done = true`: the result is sent by the trailing `if done` block
        let s := { s with fsm := { s.fsm with state := FsmState.Passed } }
        (s, [ServerMsg.result s.current_attempt_id ⟨true, none⟩], false)
      else
        let all := challenge_pool.filter (fun k => decide (k ≠ kind))
        match all.get? (rnd % all.length) with
        | some nk =>
          let next_id := "c" ++ toString (completed + 1)
          let s := { s with fsm := { s.fsm with state := FsmState.Prompting next_id nk } }
          (s, [ServerMsg.prompt next_id nk 5000 s.current_attempt_id], false)
        | none => (s, [], false)
    else (s, [], false)
  | _ => (s, [], false)

/-- The `ClientMessage::ChallengeStart` arm of `main.rs::handle_socket`
(lines 497–523): on a differing `attempt_id` the session adopts the new id
and resets FSM, telemetry and buffer; in all cases a fresh buffer is opened. -/
def process_challenge_start (s : Session) (challenge_start : ChallengeStartMessage) :
    Session × List ServerMsg × Bool :=
  let s :=
    if s.current_attempt_id ≠ challenge_start.attempt_id then
      { s with current_attempt_id := challenge_start.attempt_id
               fsm := SessionFsm.new
               tele := s.tele.reset
               challenge_buffer := none }
    else s
  let buffer : ChallengeBufferState :=
    { attempt_id := challenge_start.attempt_id
      challenge_id := challenge_start.challenge_id
      challenge_type := challenge_start.challenge_type
      start_time := challenge_start.start_time
      frames := []
      total_expected_frames := challenge_start.total_frames
      received_batches := 0
      gesture_detected := challenge_start.gesture_detected }
  ({ s with challenge_buffer := some buffer }, [], false)

/-- The `ClientMessage::ChallengeFrameBatch` arm of `main.rs::handle_socket`
(lines 524–549): frames are appended iff the session attempt id and the
buffer's `(attempt_id, challenge_id)` all match. -/
def process_challenge_frame_batch (s : Session) (frame_batch : ChallengeFrameBatchMessage) :
    Session × List ServerMsg × Bool :=
  if s.current_attempt_id ≠ frame_batch.attempt_id then (s, [], false)
  else
    match s.challenge_buffer with
    | some buffer =>
      if buffer.attempt_id = frame_batch.attempt_id ∧
          buffer.challenge_id = frame_batch.challenge_id then
        let buffer := { buffer with frames := buffer.frames ++ frame_batch.frames
                                    received_batches := buffer.received_batches + 1 }
        ({ s with challenge_buffer := some buffer }, [], false)
      else (s, [], false)
    | none => (s, [], false)

/-- The FSM advancement block of the `ClientMessage::ChallengeEnd` arm
(`main.rs` lines 577–635), applied after the decision has been made; the
session's `fsm.state` at entry is the state *before* mutation. -/
def advance_fsm_after_decision (s : Session) (decision : Decision) :
    Session × List ServerMsg :=
  if decision.passed then
    let completed := s.fsm.completed + 1
    let s := { s with fsm := { s.fsm with completed := completed } }
    if 3 ≤ completed then
      let s := { s with fsm := { s.fsm with state := FsmState.Passed } }
      (s, [ServerMsg.result s.current_attempt_id ⟨true, none⟩])
    else
      let current_kind :=
        match s.fsm.state with
        | FsmState.Prompting _ kind => kind
        | _ => ChallengeKind.OpenMouth
      let all := challenge_pool.filter (fun k => decide (k ≠ current_kind))
      if all.isEmpty then (s, [])
      else
        let idx := completed % all.length
        let nk := all.getD idx ChallengeKind.OpenMouth
        let next_id := "c" ++ toString (completed + 1)
        let s := { s with fsm := { s.fsm with state := FsmState.Prompting next_id nk } }
        (s, [ServerMsg.prompt next_id nk 5000 s.current_attempt_id])
  else
    let failed := s.fsm.failed + 1
    let s := { s with fsm := { s.fsm with failed := failed } }
    if s.fsm.completed + failed < 3 then
      let current_kind :=
        match s.fsm.state with
        | FsmState.Prompting _ kind => kind
        | _ => ChallengeKind.OpenMouth
      let all := challenge_pool.filter (fun k => decide (k ≠ current_kind))
      if all.isEmpty then (s, [])
      else
        let idx := (s.fsm.completed + failed) % all.length
        let nk := all.getD idx ChallengeKind.OpenMouth
        let next_id := "c" ++ toString (s.fsm.completed + failed + 1)
        let s := { s with fsm := { s.fsm with state := FsmState.Prompting next_id nk } }
        (s, [ServerMsg.prompt next_id nk 5000 s.current_attempt_id])
    else
      let final_passed := decide (3 ≤ s.fsm.completed)
      let out := ServerMsg.result s.current_attempt_id ⟨final_passed, none⟩
      let s := { s with fsm := { s.fsm with
        state := if final_passed then FsmState.Passed else FsmState.Failed } }
      (s, [out])

/-- The `ClientMessage::ChallengeEnd` arm of `main.rs::handle_socket`
(lines 550–644): `challenge_buffer.take()` consumes the buffer even on an id
mismatch; on a full match the analyzer runs, a `challengeResult` is emitted
and the FSM advances. -/
def process_challenge_end (now : Nat) (s : Session) (challenge_end : ChallengeEndMessage) :
    Session × List ServerMsg × Bool :=
  match s.challenge_buffer with
  | none => (s, [], false)
  | some buffer =>
    let s := { s with challenge_buffer := none }
    if s.current_attempt_id = challenge_end.attempt_id ∧
        buffer.attempt_id = challenge_end.attempt_id ∧
        buffer.challenge_id = challenge_end.challenge_id then
      let analysis := analyze_challenge_buffer now buffer
      let decision := make_challenge_decision buffer analysis
      let result := ServerMsg.challengeResult buffer.attempt_id buffer.challenge_id
        decision analysis
      let (s, outs) := advance_fsm_after_decision s decision
      (s, result :: outs, false)
    else (s, [], false)

/-- The computed `valid` flag of the `ClientMessage::Frame` arm: format must
be `jpeg` or `png`, the `data` field must be present and base64-decodable
(`b64` models `BASE64.decode`), and the decoded payload must have at least
100 bytes. -/
def json_frame_valid (b64 : String → Option (List Nat)) (frame : FrameMessage) : Bool :=
  (frame.format == "jpeg" || frame.format == "png") &&
    (match frame.data with
     | some d =>
       match b64 d with
       | some bytes => decide (100 ≤ bytes.length)
       | none => false
     | none => false)

/-- The `ClientMessage::Frame` arm of `main.rs::handle_socket`
(lines 645–708) after the frame has passed the fps admission check: PAD runs
whenever the payload base64-decodes, a `frameAck` is sent unconditionally,
and `metrics.frames_received` is bumped only when the frame is valid.  (The
rate limiter itself lives on wall-clock `Instant`s outside the session and
is not part of this arm.) -/
def process_json_frame {Img : Type} (env : PadEnv Img) (config : PadConfig)
    (b64 : String → Option (List Nat)) (s : Session) (frame : FrameMessage) :
    Session × List ServerMsg × Bool :=
  let (s, pad_dbg) :=
    match frame.data with
    | some d =>
      match b64 d with
      | some bytes =>
        let (pad_state, sig) := process_frame env config s.pad_state frame.ts bytes
        ({ s with pad_state := pad_state }, some sig)
      | none => (s, none)
    | none => (s, none)
  let ack := ServerMsg.frameAck frame.ts none pad_dbg
  if json_frame_valid b64 frame then
    ({ s with metrics := { s.metrics with frames_received := s.metrics.frames_received + 1 } },
      [ack], false)
  else (s, [ack], false)

/-- The `ClientMessage::Feedback` arm of `main.rs::handle_socket`
(lines 709–752).  `rnd` resolves the nanosecond-parity pick of the next
kind; when the attempt passes (already at `completed ≥ 2`) the result is
sent twice (once inline, once by the trailing `if done` block) and the
message loop is left (`break`, the returned `Bool`). -/
def process_feedback (rnd : Nat) (s : Session) (fb : FeedbackMessage) :
    Session × List ServerMsg × Bool :=
  match s.fsm.state with
  | FsmState.Prompting challenge_id kind =>
    let outs :=
      if fb.status = some "continue" then
        [ServerMsg.prompt challenge_id kind 5000 s.current_attempt_id]
      else []
    let ok := fb.ok.getD false
    let valid_kind :=
      match fb.kind with
      | some k => decide (k = kind)
      | none => true
    if ok && valid_kind then
      let completed := s.fsm.completed + 1
      if 2 ≤ completed then
        let s := { s with fsm := { s.fsm with completed := completed
                                              state := FsmState.Passed } }
        let res := ServerMsg.result s.current_attempt_id ⟨true, none⟩
        (s, outs ++ [res, res], true)
      else
        let next_kind :=
          if rnd % 2 = 0 then ChallengeKind.TurnLeft else ChallengeKind.TurnRight
        let s := { s with fsm := { s.fsm with completed := completed
                                              state := FsmState.Prompting "c2" next_kind } }
        (s, outs ++ [ServerMsg.prompt "c2" next_kind 5000 s.current_attempt_id], false)
    else (s, outs, false)
  | _ => (s, [], false)

/-- Dispatch of one admitted text message inside the `handle_socket` loop:
the session mutated is the one the handler actually operates on
(`sessions.values_mut().next()`).  Returns the new session, the messages
sent on the socket, and whether the loop is left. -/
def process_message {Img : Type} (env : PadEnv Img) (config : PadConfig)
    (b64 : String → Option (List Nat)) (rnd now : Nat) (s : Session) :
    ClientMessage → Session × List ServerMsg × Bool
  | ClientMessage.hello _ _ => (s, [], false)
  | ClientMessage.telemetry tel => process_telemetry rnd s tel
  | ClientMessage.frame f => process_json_frame env config b64 s f
  | ClientMessage.feedback f => process_feedback rnd s f
  | ClientMessage.challengeStart c => process_challenge_start s c
  | ClientMessage.challengeFrameBatch b => process_challenge_frame_batch s b
  | ClientMessage.challengeEnd e => process_challenge_end now s e

/-- Folding `process_message` over a message list with the oracles fixed to 0
(they are not consulted by any message used in the concrete runs below). -/
def run_messages {Img : Type} (env : PadEnv Img) (config : PadConfig)
    (b64 : String → Option (List Nat)) (s : Session) (msgs : List ClientMessage) : Session :=
  msgs.foldl (fun s m => (process_message env config b64 0 0 s m).1) s

/-- The handshake tail of `main.rs::handle_socket` (lines 356–393): token
check against the session named in `hello` (under the read lock), then
`helloAck`, then the initial `c1` `open-mouth` prompt — addressed to the
FIRST session of the mapping (`sessions.values_mut().next()`), not to the
session named in `hello`.  The mapping is the association list `sessions`
(head = first entry of the `HashMap` iteration).  Returns the updated
mapping, the emitted messages, and whether the connection is closed. -/
def handle_handshake (sessions : List Session) (session_id token : String) :
    List Session × List ServerMsg × Bool :=
  let ok := ((sessions.find? (fun s => s.id == session_id)).map
    (fun s => s.token == token)).getD false
  if ok then
    match sessions with
    | [] => (sessions, [ServerMsg.helloAck], false)
    | s :: rest =>
      let prompt := ServerMsg.prompt "c1" ChallengeKind.OpenMouth 5000 s.current_attempt_id
      let s := { s with fsm := { s.fsm with
        state := FsmState.Prompting "c1" ChallengeKind.OpenMouth } }
      (s :: rest, [ServerMsg.helloAck, prompt], false)
  else (sessions, [ServerMsg.error "unauthorized" "invalid session or token"], true)

end FacePro

namespace FacePro

/-- The pass/fail/reason shape of `make_challenge_decision` over an arbitrary
analysis record. -/
lemma make_challenge_decision_eq (buffer : ChallengeBufferState)
    (analysis : ChallengeAnalysis) :
    ((make_challenge_decision buffer analysis).passed = true ↔
      ((7/10 : ℚ) ≤ analysis.face_detection_rate ∧
        (3/5 : ℚ) ≤ analysis.quality_score ∧
        10 ≤ analysis.total_frames ∧
        buffer.gesture_detected = true)) ∧
    (make_challenge_decision buffer analysis).reason =
      (if (make_challenge_decision buffer analysis).passed = true then none
       else if ¬ ((7/10 : ℚ) ≤ analysis.face_detection_rate) then
         some "Taxa de detecção facial muito baixa"
       else if ¬ ((3/5 : ℚ) ≤ analysis.quality_score) then
         some "Qualidade dos dados insuficiente"
       else if ¬ (10 ≤ analysis.total_frames) then
         some "Número insuficiente de frames"
       else if ¬ (buffer.gesture_detected = true) then
         some "Gesto não detectado"
       else some "Critérios não atendidos") := by
  unfold make_challenge_decision
  by_cases h1 : (7/10 : ℚ) ≤ analysis.face_detection_rate <;>
    by_cases h2 : (3/5 : ℚ) ≤ analysis.quality_score <;>
    by_cases h3 : 10 ≤ analysis.total_frames <;>
    by_cases h4 : buffer.gesture_detected = true <;>
    simp [h1, h2, h3, h4]

/-- C3: for every closed challenge buffer, the per-challenge decision passes
iff `face_detection_rate ≥ 0.7`, `quality_score ≥ 0.6`, `total_frames ≥ 10`
and the gesture flag all hold, and the failure reason is the first unmet
criterion in exactly that order. -/
theorem challenge_decision_criteria_and_reason_order (now : Nat)
    (buffer : ChallengeBufferState) :
    ((make_challenge_decision buffer (analyze_challenge_buffer now buffer)).passed = true ↔
      ((7/10 : ℚ) ≤ (analyze_challenge_buffer now buffer).face_detection_rate ∧
        (3/5 : ℚ) ≤ (analyze_challenge_buffer now buffer).quality_score ∧
        10 ≤ (analyze_challenge_buffer now buffer).total_frames ∧
        buffer.gesture_detected = true)) ∧
    (make_challenge_decision buffer (analyze_challenge_buffer now buffer)).reason =
      (if (make_challenge_decision buffer (analyze_challenge_buffer now buffer)).passed = true
        then none
       else if ¬ ((7/10 : ℚ) ≤ (analyze_challenge_buffer now buffer).face_detection_rate) then
         some "Taxa de detecção facial muito baixa"
       else if ¬ ((3/5 : ℚ) ≤ (analyze_challenge_buffer now buffer).quality_score) then
         some "Qualidade dos dados insuficiente"
       else if ¬ (10 ≤ (analyze_challenge_buffer now buffer).total_frames) then
         some "Número insuficiente de frames"
       else if ¬ (buffer.gesture_detected = true) then
         some "Gesto não detectado"
       else some "Critérios não atendidos") :=
  make_challenge_decision_eq buffer (analyze_challenge_buffer now buffer)

/-- C4: at two fully-overlapping boxes (IoU = 1 ≥ threshold 0.4) with scores
0.9 and 0.8, `non_max_suppression` keeps the LOWER-scoring box: the
descending sort followed by `Vec::pop` (which removes from the back)
processes candidates in ascending score order, so the 0.8 box is selected
first and suppresses the 0.9 box. -/
theorem nms_keeps_lower_scored_box :
    non_max_suppression
        [⟨0, 0, 10, 10, 9/10⟩, ⟨0, 0, 10, 10, 4/5⟩] (2/5) = [⟨0, 0, 10, 10, 4/5⟩] ∧
      (2/5 : ℚ) ≤ intersection_over_union ⟨0, 0, 10, 10, 9/10⟩ ⟨0, 0, 10, 10, 4/5⟩ ∧
      (4/5 : ℚ) < (9/10 : ℚ) := by
  norm_num [non_max_suppression, sort_by_score_desc, insert_desc, nms_pop_loop,
    intersection_over_union, FaceBox.area]

end FacePro

namespace FacePro

/-- Concrete environment in which no byte sequence decodes to an image. -/
def env_undecodable : PadEnv Unit :=
  { img_decode := fun _ => none, phash := fun _ => 0, gray := fun _ _ _ => [] }

/-- Concrete environment in which every byte sequence decodes (to the single
`Unit` image) with a constant hash — the two identical-frame scenarios only
need decodability and hash determinism. -/
def env_decodable : PadEnv Unit :=
  { img_decode := fun _ => some (), phash := fun _ => 0, gray := fun _ _ _ => [] }

/-- C5 (amended): on image bytes that cannot be decoded, `process_frame`
leaves the hash ring and the grayscale reference unchanged, sets `last_ts`
to the call's timestamp, and returns `duplicate_hash = false` and
`flicker = 0`; `suspected_replay`, however, is still computed from the
timestamps alone (`replay_flag`) rather than being forced to `false`. -/
theorem process_frame_undecodable_behaviour {Img : Type} (env : PadEnv Img)
    (config : PadConfig) (state : PadState) (ts : Nat) (bytes : List Nat)
    (h : env.img_decode bytes = none) :
    process_frame env config state ts bytes =
      ({ state with last_ts := some ts },
        ⟨replay_flag config state.last_ts ts, false, 0⟩) := by
  simp [process_frame, h]

/-- Witness for `process_frame_undecodable_behaviour` at a concrete state. -/
theorem process_frame_undecodable_behaviour_witness :
    process_frame env_undecodable PadConfig.default
        { last_ts := none, recent_hashes := [(7, 3)], last_small_gray := some [1] } 5 [0] =
      ({ last_ts := some 5, recent_hashes := [(7, 3)], last_small_gray := some [1] },
        ⟨false, false, 0⟩) :=
  process_frame_undecodable_behaviour env_undecodable PadConfig.default
    { last_ts := none, recent_hashes := [(7, 3)], last_small_gray := some [1] } 5 [0] rfl

/-- C5 counterexample: with a stored `last_ts = 10000` and an undecodable
frame at `ts = 0`, PAD reports `suspected_replay = true` (computed before
the decode attempt), contradicting the claim that the result is exactly
`(false, false, 0.0)`. -/
theorem process_frame_undecodable_replay_flagged :
    (process_frame env_undecodable PadConfig.default
        { last_ts := some 10000, recent_hashes := [], last_small_gray := none } 0 []).2 =
      ⟨true, false, 0⟩ := by
  simp [process_frame, env_undecodable, replay_flag, PadConfig.default]

end FacePro

namespace FacePro

/-- Whether a server message is an `error`. -/
def ServerMsg.is_error : ServerMsg → Bool
  | ServerMsg.error _ _ => true
  | _ => false

/-- The `pad_dbg` value computed by the `Frame` arm: PAD signals whenever the
payload base64-decodes, independent of the validity flag. -/
def json_frame_pad {Img : Type} (env : PadEnv Img) (config : PadConfig)
    (b64 : String → Option (List Nat)) (s : Session) (frame : FrameMessage) :
    Option PadSignals :=
  match frame.data with
  | some d =>
    match b64 d with
    | some bytes => some (process_frame env config s.pad_state frame.ts bytes).2
    | none => none
  | none => none

/-- A base64 decoder under which every payload decodes to 50 bytes (shorter
than the 100-byte minimum, so every frame is invalid). -/
def b64_const50 : String → Option (List Nat) := fun _ => some (List.replicate 50 0)

/-- A fresh session as produced by `main.rs::create_session`. -/
def session0 : Session :=
  { id := "s", token := "t", metrics := ⟨0, 0⟩, fsm := SessionFsm.new
    pad_state := PadState.default, tele := TelemetryState.default
    challenge_buffer := none, current_attempt_id := "a" }

/-- C6 (amended): an admitted JSON `frame` message that is invalid (format
not `jpeg`/`png`, missing or undecodable base64 data, or decoded payload
shorter than 100 bytes) is answered with a `frameAck` — not with an
`invalid-frame` error, which the JSON path never emits — the connection
continues, and the session metrics are left unchanged. -/
theorem invalid_json_frame_gets_frame_ack {Img : Type} (env : PadEnv Img)
    (config : PadConfig) (b64 : String → Option (List Nat)) (s : Session)
    (frame : FrameMessage) (hinvalid : json_frame_valid b64 frame = false) :
    (process_json_frame env config b64 s frame).2.1 =
      [ServerMsg.frameAck frame.ts none (json_frame_pad env config b64 s frame)] ∧
    ((process_json_frame env config b64 s frame).2.1.any ServerMsg.is_error) = false ∧
    (process_json_frame env config b64 s frame).2.2 = false ∧
    (process_json_frame env config b64 s frame).1.metrics = s.metrics := by
  cases hd : frame.data with
  | none => simp [process_json_frame, json_frame_pad, hd, hinvalid, ServerMsg.is_error]
  | some d =>
    cases hb : b64 d with
    | none => simp [process_json_frame, json_frame_pad, hd, hb, hinvalid, ServerMsg.is_error]
    | some bytes =>
      simp [process_json_frame, json_frame_pad, hd, hb, hinvalid, ServerMsg.is_error]

/-- Witness for `invalid_json_frame_gets_frame_ack`: a `jpeg` frame whose
payload decodes to only 50 bytes. -/
theorem invalid_json_frame_gets_frame_ack_witness :
    (process_json_frame env_undecodable PadConfig.default b64_const50 session0
        ⟨0, "jpeg", some "x"⟩).2.1 =
      [ServerMsg.frameAck 0 none
        (json_frame_pad env_undecodable PadConfig.default b64_const50 session0
          ⟨0, "jpeg", some "x"⟩)] ∧
    ((process_json_frame env_undecodable PadConfig.default b64_const50 session0
        ⟨0, "jpeg", some "x"⟩).2.1.any ServerMsg.is_error) = false ∧
    (process_json_frame env_undecodable PadConfig.default b64_const50 session0
        ⟨0, "jpeg", some "x"⟩).2.2 = false ∧
    (process_json_frame env_undecodable PadConfig.default b64_const50 session0
        ⟨0, "jpeg", some "x"⟩).1.metrics = session0.metrics :=
  invalid_json_frame_gets_frame_ack env_undecodable PadConfig.default b64_const50 session0
    ⟨0, "jpeg", some "x"⟩ (by decide)

/-- C6 counterexample: for a concrete invalid JSON frame (valid `jpeg`
format, data decoding to 50 < 100 bytes) the reply stream contains no
`error` message at all — in particular no `invalid-frame` error — while the
claim requires one. -/
theorem invalid_json_frame_no_error_reply :
    json_frame_valid b64_const50 ⟨0, "jpeg", some "x"⟩ = false ∧
    ((process_json_frame env_undecodable PadConfig.default b64_const50 session0
        ⟨0, "jpeg", some "x"⟩).2.1.any ServerMsg.is_error) = false ∧
    (process_json_frame env_undecodable PadConfig.default b64_const50 session0
        ⟨0, "jpeg", some "x"⟩).2.2 = false := by
  refine ⟨by decide, ?_, ?_⟩ <;>
    simp [process_json_frame, json_frame_valid, b64_const50, env_undecodable, session0,
      process_frame, ServerMsg.is_error]

/-- C10: an admitted JSON frame whose data base64-decodes still drives the
PAD engine and receives a `frameAck` carrying the PAD signals even when the
frame is invalid; only the `frames_received` metric increment is withheld
and the connection continues. -/
theorem invalid_json_frame_still_runs_pad {Img : Type} (env : PadEnv Img)
    (config : PadConfig) (b64 : String → Option (List Nat)) (s : Session)
    (frame : FrameMessage) (d : String) (bytes : List Nat)
    (hd : frame.data = some d) (hb : b64 d = some bytes)
    (hinvalid : json_frame_valid b64 frame = false) :
    (process_json_frame env config b64 s frame).1.pad_state =
      (process_frame env config s.pad_state frame.ts bytes).1 ∧
    (process_json_frame env config b64 s frame).2.1 =
      [ServerMsg.frameAck frame.ts none
        (some (process_frame env config s.pad_state frame.ts bytes).2)] ∧
    (process_json_frame env config b64 s frame).1.metrics.frames_received =
      s.metrics.frames_received ∧
    (process_json_frame env config b64 s frame).2.2 = false := by
  simp [process_json_frame, hd, hb, hinvalid]

/-- Witness for `invalid_json_frame_still_runs_pad`: a decodable but
too-short payload in a decodable-image environment. -/
theorem invalid_json_frame_still_runs_pad_witness :
    (process_json_frame env_decodable PadConfig.default b64_const50 session0
        ⟨0, "jpeg", some "x"⟩).1.pad_state =
      (process_frame env_decodable PadConfig.default session0.pad_state 0
        (List.replicate 50 0)).1 ∧
    (process_json_frame env_decodable PadConfig.default b64_const50 session0
        ⟨0, "jpeg", some "x"⟩).2.1 =
      [ServerMsg.frameAck 0 none
        (some (process_frame env_decodable PadConfig.default session0.pad_state 0
          (List.replicate 50 0)).2)] ∧
    (process_json_frame env_decodable PadConfig.default b64_const50 session0
        ⟨0, "jpeg", some "x"⟩).1.metrics.frames_received =
      session0.metrics.frames_received ∧
    (process_json_frame env_decodable PadConfig.default b64_const50 session0
        ⟨0, "jpeg", some "x"⟩).2.2 = false :=
  invalid_json_frame_still_runs_pad env_decodable PadConfig.default b64_const50 session0
    ⟨0, "jpeg", some "x"⟩ "x" (List.replicate 50 0) rfl rfl (by decide)

end FacePro

namespace FacePro

lemma popCount_zero : popCount 0 = 0 := by
  unfold popCount
  simp

lemma hamming_distance_u64_self (h : Nat) : hamming_distance_u64 h h = 0 := by
  simp [hamming_distance_u64, Nat.xor_self, popCount_zero]

/-- An element that closes a list and does not satisfy the predicate survives
`dropWhile` (which only removes a prefix). -/
lemma mem_dropWhile_of_getLast? {α : Type} (p : α → Bool) :
    ∀ (l : List α) (x : α), l.getLast? = some x → p x = false → x ∈ l.dropWhile p := by
  intro l
  induction l with
  | nil => intro x hx; simp at hx
  | cons a t ih =>
    intro x hx hpx
    cases t with
    | nil =>
      simp at hx
      subst hx
      simp [List.dropWhile, hpx]
    | cons b t' =>
      rw [List.getLast?_cons_cons] at hx
      rw [List.dropWhile_cons]
      by_cases hpa : p a = true
      · simp [hpa]
        exact ih x hx hpx
      · simp at hpa
        simp [hpa]
        right
        have := List.mem_of_mem_getLast? hx
        simpa using this

lemma getLast?_drop_one {α : Type} (l : List α) (h2 : 2 ≤ l.length) :
    (l.drop 1).getLast? = l.getLast? := by
  match l, h2 with
  | a :: b :: t, _ => simp [List.getLast?_cons_cons]

/-- After a decodable `process_frame` call with `max_recent_hashes ≥ 1`,
the back of the hash ring is the just-inserted `(hash, ts)` pair. -/
lemma process_frame_ring_getLast {Img : Type} (env : PadEnv Img) (config : PadConfig)
    (st : PadState) (ts : Nat) (bytes : List Nat) (img : Img)
    (hdec : env.img_decode bytes = some img)
    (hmax : 1 ≤ config.max_recent_hashes) :
    (process_frame env config st ts bytes).1.recent_hashes.getLast? =
      some (env.phash img, ts) := by
  simp only [process_frame, hdec]
  set e := st.recent_hashes.dropWhile
    (fun x => decide (config.replay_window_ms < ts - x.2)) with he
  by_cases hcap : config.max_recent_hashes < (e ++ [(env.phash img, ts)]).length
  · simp only [hcap, if_true]
    rw [getLast?_drop_one]
    · exact List.getLast?_concat e
    · simp only [List.length_append, List.length_cons, List.length_nil] at hcap ⊢
      omega
  · simp only [hcap, if_false]
    exact List.getLast?_concat e

/-- C8: identical decodable image bytes processed twice in direct succession
at timestamps `t` and `t + d` with `d ≤ replay_window_ms` (and a ring
capacity of at least one) make the second call report
`duplicate_hash = true`: the identical bytes hash identically, Hamming
distance 0 is within any threshold, and the first entry has not been
evicted. -/
theorem duplicate_hash_on_repeated_identical_frame {Img : Type} (env : PadEnv Img)
    (config : PadConfig) (st : PadState) (t d : Nat) (bytes : List Nat) (img : Img)
    (hdec : env.img_decode bytes = some img)
    (hd : d ≤ config.replay_window_ms)
    (hmax : 1 ≤ config.max_recent_hashes) :
    (process_frame env config (process_frame env config st t bytes).1 (t + d)
      bytes).2.duplicate_hash = true := by
  have hlast := process_frame_ring_getLast env config st t bytes img hdec hmax
  conv_lhs => rw [process_frame]
  simp only [hdec]
  refine List.any_eq_true.mpr ⟨(env.phash img, t), ?_, ?_⟩
  · refine mem_dropWhile_of_getLast? _ _ _ hlast ?_
    simp only [decide_eq_false_iff_not, not_lt]
    have : t + d - t = d := by omega
    rw [this]
    exact hd
  · simp [hamming_distance_u64_self]

/-- Witness for `duplicate_hash_on_repeated_identical_frame`: the default
configuration, an always-decoding environment, timestamps 1000 and 1500. -/
theorem duplicate_hash_on_repeated_identical_frame_witness :
    (process_frame env_decodable PadConfig.default
      (process_frame env_decodable PadConfig.default PadState.default 1000 [7]).1
      (1000 + 500) [7]).2.duplicate_hash = true :=
  duplicate_hash_on_repeated_identical_frame env_decodable PadConfig.default
    PadState.default 1000 500 [7] () rfl (by decide) (by decide)

end FacePro

namespace FacePro

/-- Two stored sessions; the hello below names the second one. -/
def session_s1 : Session :=
  { id := "s1", token := "t1", metrics := ⟨0, 0⟩, fsm := SessionFsm.new
    pad_state := PadState.default, tele := TelemetryState.default
    challenge_buffer := none, current_attempt_id := "a1" }

/-- The session named by the hello in the C9 scenario. -/
def session_s2 : Session :=
  { id := "s2", token := "t2", metrics := ⟨0, 0⟩, fsm := SessionFsm.new
    pad_state := PadState.default, tele := TelemetryState.default
    challenge_buffer := none, current_attempt_id := "a2" }

/-- C9: with two stored sessions and a hello naming (and authenticating as)
the SECOND one, the handshake emits `helloAck` and then the `c1` open-mouth
prompt — but the prompt carries the FIRST session's attempt id, the first
session's FSM is set to `Prompting`, and the hello-named session stays
`Idle`: dispatch goes to `sessions.values_mut().next()`, not to the session
named in the hello. -/
theorem handshake_prompts_first_session_not_hello_session :
    (handle_handshake [session_s1, session_s2] "s2" "t2").2.1 =
      [ServerMsg.helloAck, ServerMsg.prompt "c1" ChallengeKind.OpenMouth 5000 "a1"] ∧
    ((handle_handshake [session_s1, session_s2] "s2" "t2").1.getD 0 session_s2).fsm.state =
      FsmState.Prompting "c1" ChallengeKind.OpenMouth ∧
    ((handle_handshake [session_s1, session_s2] "s2" "t2").1.getD 1 session_s1).fsm.state =
      FsmState.Idle ∧
    (handle_handshake [session_s1, session_s2] "s2" "t2").2.2 = false := by
  decide

end FacePro

namespace FacePro

/-- All ring timestamps are bounded by `t`. -/
def ring_ub (ring : List (Nat × Nat)) (t : Nat) : Prop :=
  ∀ x ∈ ring, x.2 ≤ t

/-- Any two ring entries' timestamps are within `window` of each other (in
particular every entry is within `window` of the newest one). -/
def ring_gap_le (window : Nat) (ring : List (Nat × Nat)) : Prop :=
  ∀ x ∈ ring, ∀ y ∈ ring, y.2 - x.2 ≤ window

/-- Ring invariant for monotone streams: sorted by timestamp, bounded by the
last processed timestamp, pairwise within the replay window. -/
def pad_ring_inv (config : PadConfig) (st : PadState) (t : Nat) : Prop :=
  List.Pairwise (fun a b : Nat × Nat => a.2 ≤ b.2) st.recent_hashes ∧
  ring_ub st.recent_hashes t ∧
  ring_gap_le config.replay_window_ms st.recent_hashes

lemma dropWhile_head_pred_false {α : Type} (p : α → Bool) :
    ∀ (l : List α) (a : α) (rest : List α), l.dropWhile p = a :: rest → p a = false := by
  intro l
  induction l with
  | nil => intro a rest h; simp at h
  | cons b t ih =>
    intro a rest h
    rw [List.dropWhile_cons] at h
    by_cases hb : p b = true
    · rw [if_pos hb] at h
      exact ih a rest h
    · rw [if_neg hb] at h
      injection h with h1 _
      subst h1
      simpa using hb

/-- After front-eviction at timestamp `ts`, every surviving entry of a SORTED
ring is within the window of `ts`. -/
lemma dropWhile_fresh (window ts : Nat) (ring : List (Nat × Nat))
    (hsorted : List.Pairwise (fun a b : Nat × Nat => a.2 ≤ b.2) ring) :
    ∀ x ∈ ring.dropWhile (fun e => decide (window < ts - e.2)),
      ts - x.2 ≤ window := by
  intro x hx
  cases he : ring.dropWhile (fun e => decide (window < ts - e.2)) with
  | nil => rw [he] at hx; simp at hx
  | cons a rest =>
    rw [he] at hx
    have hpa := dropWhile_head_pred_false (fun e => decide (window < ts - e.2)) ring a rest he
    have ha_le : ts - a.2 ≤ window := by
      have := of_decide_eq_false hpa
      omega
    rcases List.mem_cons.mp hx with rfl | hx'
    · exact ha_le
    · have hsub : List.Sublist (a :: rest) ring := he ▸ List.dropWhile_sublist _
      have hsorted' := hsorted.sublist hsub
      have hax : a.2 ≤ x.2 := (List.pairwise_cons.mp hsorted').1 x hx'
      omega

/-- One `process_frame` call at a timestamp at least the previous bound
preserves the ring invariant. -/
lemma pad_ring_inv_step {Img : Type} (env : PadEnv Img) (config : PadConfig)
    (st : PadState) (t ts : Nat) (bytes : List Nat)
    (hinv : pad_ring_inv config st t) (hts : t ≤ ts) :
    pad_ring_inv config (process_frame env config st ts bytes).1 ts := by
  obtain ⟨hsorted, hub, hgap⟩ := hinv
  cases hdec : env.img_decode bytes with
  | none =>
    simp only [process_frame, hdec]
    exact ⟨hsorted, fun x hx => le_trans (hub x hx) hts, hgap⟩
  | some img =>
    simp only [process_frame, hdec]
    have hesub : List.Sublist (st.recent_hashes.dropWhile
        (fun e => decide (config.replay_window_ms < ts - e.2))) st.recent_hashes :=
      List.dropWhile_sublist _
    have hesorted := hsorted.sublist hesub
    have heub : ∀ x ∈ st.recent_hashes.dropWhile
        (fun e => decide (config.replay_window_ms < ts - e.2)), x.2 ≤ t :=
      fun x hx => hub x (hesub.subset hx)
    have hefresh := dropWhile_fresh config.replay_window_ms ts st.recent_hashes hsorted
    have hmsorted : List.Pairwise (fun a b : Nat × Nat => a.2 ≤ b.2)
        (st.recent_hashes.dropWhile
          (fun e => decide (config.replay_window_ms < ts - e.2)) ++ [(env.phash img, ts)]) := by
      refine List.pairwise_append.mpr ⟨hesorted, by simp, ?_⟩
      intro a ha b hb
      simp only [List.mem_singleton] at hb
      subst hb
      exact le_trans (heub a ha) hts
    have hmub : ∀ x ∈ st.recent_hashes.dropWhile
        (fun e => decide (config.replay_window_ms < ts - e.2)) ++ [(env.phash img, ts)],
        x.2 ≤ ts := by
      intro x hx
      rcases List.mem_append.mp hx with hx' | hx'
      · exact le_trans (heub x hx') hts
      · simp only [List.mem_singleton] at hx'
        subst hx'
        exact le_refl ts
    have hmgap : ∀ x ∈ st.recent_hashes.dropWhile
        (fun e => decide (config.replay_window_ms < ts - e.2)) ++ [(env.phash img, ts)],
        ∀ y ∈ st.recent_hashes.dropWhile
          (fun e => decide (config.replay_window_ms < ts - e.2)) ++ [(env.phash img, ts)],
        y.2 - x.2 ≤ config.replay_window_ms := by
      intro x hx y hy
      have hyub := hmub y hy
      rcases List.mem_append.mp hx with hx' | hx'
      · have := hefresh x hx'
        omega
      · simp only [List.mem_singleton] at hx'
        subst hx'
        simp only
        omega
    set m := st.recent_hashes.dropWhile
      (fun e => decide (config.replay_window_ms < ts - e.2)) ++ [(env.phash img, ts)] with hm
    have hcsub : List.Sublist
        (if config.max_recent_hashes < m.length then m.drop 1 else m) m := by
      split
      · exact List.drop_sublist 1 m
      · exact List.Sublist.refl m
    exact ⟨hmsorted.sublist hcsub,
      fun x hx => hmub x (hcsub.subset hx),
      fun x hx y hy => hmgap x (hcsub.subset hx) y (hcsub.subset hy)⟩

/-- The ring invariant carried along a stream with nondecreasing timestamps. -/
lemma pad_ring_inv_run {Img : Type} (env : PadEnv Img) (config : PadConfig) :
    ∀ (calls : List (Nat × List Nat)) (st : PadState) (t : Nat),
      pad_ring_inv config st t →
      List.Chain' (· ≤ ·) (t :: calls.map Prod.fst) →
      ∃ t', pad_ring_inv config (run_pad env config st calls) t' := by
  intro calls
  induction calls with
  | nil => intro st t hinv _; exact ⟨t, hinv⟩
  | cons c rest ih =>
    intro st t hinv hchain
    simp only [List.map_cons] at hchain
    have h1 : t ≤ c.1 := (List.chain'_cons.mp hchain).1
    have h2 := (List.chain'_cons.mp hchain).2
    have hstep := pad_ring_inv_step env config st t c.1 c.2 hinv h1
    have hrw : run_pad env config st (c :: rest) =
        run_pad env config (process_frame env config st c.1 c.2).1 rest := by
      simp [run_pad]
    rw [hrw]
    exact ih _ c.1 hstep h2

/-- One `process_frame` call preserves the size bound on the ring. -/
lemma pad_ring_len_step {Img : Type} (env : PadEnv Img) (config : PadConfig)
    (st : PadState) (ts : Nat) (bytes : List Nat)
    (h : st.recent_hashes.length ≤ config.max_recent_hashes) :
    (process_frame env config st ts bytes).1.recent_hashes.length ≤
      config.max_recent_hashes := by
  cases hdec : env.img_decode bytes with
  | none => simpa [process_frame, hdec] using h
  | some img =>
    simp only [process_frame, hdec]
    have hlen : (st.recent_hashes.dropWhile
        (fun e => decide (config.replay_window_ms < ts - e.2))).length ≤
        st.recent_hashes.length :=
      (List.dropWhile_sublist _).length_le
    split
    · simp only [List.length_drop, List.length_append, List.length_cons, List.length_nil]
      omega
    · rename_i hcap
      simp only [List.length_append, List.length_cons, List.length_nil] at hcap ⊢
      omega

/-- The size bound carried along an arbitrary stream. -/
lemma pad_ring_len_run {Img : Type} (env : PadEnv Img) (config : PadConfig) :
    ∀ (calls : List (Nat × List Nat)) (st : PadState),
      st.recent_hashes.length ≤ config.max_recent_hashes →
      (run_pad env config st calls).recent_hashes.length ≤ config.max_recent_hashes := by
  intro calls
  induction calls with
  | nil => intro st h; exact h
  | cons c rest ih =>
    intro st h
    have hrw : run_pad env config st (c :: rest) =
        run_pad env config (process_frame env config st c.1 c.2).1 rest := by
      simp [run_pad]
    rw [hrw]
    exact ih _ (pad_ring_len_step env config st c.1 c.2 h)

/-- C7 (amended): for every call stream from a fresh session, the ring never
exceeds `max_recent_hashes` entries (any timestamps); and when the stream's
timestamps are nondecreasing, any two surviving entries — in particular any
entry and the newest one — are within `replay_window_ms` of each other.  For
non-monotonic timestamps the freshness bound fails (see the stale-entry
counterexample). -/
theorem pad_ring_bounded_and_window_fresh {Img : Type} (env : PadEnv Img)
    (config : PadConfig) (calls : List (Nat × List Nat)) :
    (run_pad env config PadState.default calls).recent_hashes.length ≤
      config.max_recent_hashes ∧
    (List.Chain' (· ≤ ·) (calls.map Prod.fst) →
      ring_gap_le config.replay_window_ms
        (run_pad env config PadState.default calls).recent_hashes) := by
  constructor
  · exact pad_ring_len_run env config calls PadState.default (by simp [PadState.default])
  · intro hchain
    have hinv0 : pad_ring_inv config PadState.default 0 := by
      refine ⟨?_, ?_, ?_⟩ <;> simp [PadState.default, ring_ub, ring_gap_le]
    have hchain' : List.Chain' (· ≤ ·) (0 :: calls.map Prod.fst) :=
      List.chain'_cons'.mpr ⟨fun h _ => Nat.zero_le h, hchain⟩
    obtain ⟨t', hinv⟩ := pad_ring_inv_run env config calls PadState.default 0 hinv0 hchain'
    exact hinv.2.2

/-- Witness for `pad_ring_bounded_and_window_fresh` on the monotone stream
`[0, 700]` in the default configuration. -/
theorem pad_ring_bounded_and_window_fresh_witness :
    (run_pad env_decodable PadConfig.default PadState.default
        [(0, []), (700, [])]).recent_hashes.length ≤ 32 ∧
    (700 : Nat) - 0 ≤ 5000 := by
  have h := pad_ring_bounded_and_window_fresh env_decodable PadConfig.default
    [(0, []), (700, [])]
  refine ⟨h.1, ?_⟩
  have hg := h.2 (by simp)
  exact hg (0, 0) (by decide) (0, 700) (by decide)

/-- C7 counterexample: calls at timestamps 6000, 0, 7000 (all decodable)
leave the entry stamped 0 in the ring behind the newer entry stamped 6000 —
front-only eviction never reaches it — so after the third call an entry sits
7000 ms behind the most recent timestamp, exceeding the 5000 ms window. -/
theorem pad_ring_stale_entry_survives :
    (run_pad env_decodable PadConfig.default PadState.default
        [(6000, []), (0, []), (7000, [])]).recent_hashes =
      [(0, 6000), (0, 0), (0, 7000)] ∧
    ((run_pad env_decodable PadConfig.default PadState.default
        [(6000, []), (0, []), (7000, [])]).recent_hashes.all
      (fun e => decide (7000 - e.2 ≤ 5000))) = false := by
  decide

end FacePro

namespace FacePro

/-- Removing one kind from the four-kind pool always leaves candidates. -/
lemma challenge_pool_filter_nonempty (k : ChallengeKind) :
    (challenge_pool.filter (fun x => decide (x ≠ k))).isEmpty = false := by
  cases k <;> rfl

/-- Some pool member differs from any given kind. -/
lemma exists_pool_ne (k : ChallengeKind) : ∃ x ∈ challenge_pool, ¬ x = k := by
  cases k <;> simp [challenge_pool]

/-- A passed challenge decision increments exactly `completed` and reaches
`Passed` exactly when the incremented count is 3 (the `failed` count is not
consulted). -/
lemma advance_fsm_pass (s : Session) (d : Decision) (hd : d.passed = true) :
    (advance_fsm_after_decision s d).1.fsm.completed = s.fsm.completed + 1 ∧
    (advance_fsm_after_decision s d).1.fsm.failed = s.fsm.failed ∧
    ((advance_fsm_after_decision s d).1.fsm.state = FsmState.Passed ↔
      3 ≤ s.fsm.completed + 1) := by
  by_cases h3 : 3 ≤ s.fsm.completed + 1
  · simp [advance_fsm_after_decision, hd, h3]
  · simp only [advance_fsm_after_decision, hd, if_true, if_neg h3]
    rw [if_neg]
    · simp [h3]
    · simp only [challenge_pool_filter_nonempty, Bool.false_eq_true, not_false_eq_true]

/-- A failed challenge decision increments exactly `failed` and reaches a
terminal state exactly when the incremented sum is at least 3. -/
lemma advance_fsm_fail (s : Session) (d : Decision) (hd : d.passed = false) :
    (advance_fsm_after_decision s d).1.fsm.failed = s.fsm.failed + 1 ∧
    (advance_fsm_after_decision s d).1.fsm.completed = s.fsm.completed ∧
    (((advance_fsm_after_decision s d).1.fsm.state = FsmState.Passed ∨
      (advance_fsm_after_decision s d).1.fsm.state = FsmState.Failed) ↔
      3 ≤ s.fsm.completed + s.fsm.failed + 1) := by
  by_cases h3 : s.fsm.completed + (s.fsm.failed + 1) < 3
  · simp only [advance_fsm_after_decision, hd, Bool.false_eq_true, if_false, if_pos h3]
    rw [if_neg]
    · constructor
      · simp
      · constructor
        · simp
        · constructor
          · intro h
            rcases h with h | h <;> simp at h
          · intro h
            omega
    · simp only [challenge_pool_filter_nonempty, Bool.false_eq_true, not_false_eq_true]
  · simp only [advance_fsm_after_decision, hd, Bool.false_eq_true, if_false, if_neg h3]
    constructor
    · simp
    · constructor
      · simp
      · constructor
        · intro _
          omega
        · intro _
          by_cases hfp : 3 ≤ s.fsm.completed
          · left
            simp [hfp]
          · right
            simp [hfp]

end FacePro

namespace FacePro

/-- The session returned by a fully-matching `challenge-end` is the advanced
one. -/
lemma process_challenge_end_matching (now : Nat) (s : Session)
    (endm : ChallengeEndMessage) (buf : ChallengeBufferState)
    (hbuf : s.challenge_buffer = some buf)
    (haid : s.current_attempt_id = endm.attempt_id)
    (hbaid : buf.attempt_id = endm.attempt_id)
    (hbcid : buf.challenge_id = endm.challenge_id) :
    (process_challenge_end now s endm).1 =
      (advance_fsm_after_decision { s with challenge_buffer := none }
        (make_challenge_decision buf (analyze_challenge_buffer now buf))).1 := by
  simp [process_challenge_end, hbuf, haid, hbaid, hbcid]

/-- C2 (amended): each fully-matching `challenge-end` increments exactly one
of the two counters — `completed` on a pass (entering `Passed` exactly when
the new count reaches 3, without consulting `failed`), `failed` on a fail
(entering a terminal state exactly when the new sum reaches 3) — so the sum
`completed + failed` can exceed 3 along pass steps (see the separate
counterexample run); and the feedback path increments `completed` and enters
`Passed` already when the new count reaches 2. -/
theorem challenge_end_and_feedback_counter_steps (now rnd : Nat) (s : Session)
    (endm : ChallengeEndMessage) (buf : ChallengeBufferState) (fb : FeedbackMessage)
    (cid : String) (kind : ChallengeKind)
    (hbuf : s.challenge_buffer = some buf)
    (haid : s.current_attempt_id = endm.attempt_id)
    (hbaid : buf.attempt_id = endm.attempt_id)
    (hbcid : buf.challenge_id = endm.challenge_id)
    (hprompt : s.fsm.state = FsmState.Prompting cid kind)
    (hok : fb.ok = some true)
    (hkind : fb.kind = none) :
    ((make_challenge_decision buf (analyze_challenge_buffer now buf)).passed = true →
      (process_challenge_end now s endm).1.fsm.completed = s.fsm.completed + 1 ∧
      (process_challenge_end now s endm).1.fsm.failed = s.fsm.failed ∧
      ((process_challenge_end now s endm).1.fsm.state = FsmState.Passed ↔
        3 ≤ s.fsm.completed + 1)) ∧
    ((make_challenge_decision buf (analyze_challenge_buffer now buf)).passed = false →
      (process_challenge_end now s endm).1.fsm.failed = s.fsm.failed + 1 ∧
      (process_challenge_end now s endm).1.fsm.completed = s.fsm.completed ∧
      (((process_challenge_end now s endm).1.fsm.state = FsmState.Passed ∨
        (process_challenge_end now s endm).1.fsm.state = FsmState.Failed) ↔
        3 ≤ s.fsm.completed + s.fsm.failed + 1)) ∧
    ((process_feedback rnd s fb).1.fsm.completed = s.fsm.completed + 1 ∧
      ((process_feedback rnd s fb).1.fsm.state = FsmState.Passed ↔
        2 ≤ s.fsm.completed + 1)) := by
  have hrw := process_challenge_end_matching now s endm buf hbuf haid hbaid hbcid
  refine ⟨?_, ?_, ?_⟩
  · intro hpass
    rw [hrw]
    have h := advance_fsm_pass { s with challenge_buffer := none } _ hpass
    simpa using h
  · intro hfail
    rw [hrw]
    have h := advance_fsm_fail { s with challenge_buffer := none } _ hfail
    simpa using h
  · simp only [process_feedback, hprompt, hok, hkind]
    by_cases h2 : 2 ≤ s.fsm.completed + 1
    · simp [h2]
    · simp [h2]

end FacePro

namespace FacePro

/-- A buffered frame with a detected face and no further evidence. -/
def pass_frame : ChallengeFrameData :=
  { face_present := some true, motion_score := none, landmarks := none }

/-- The buffer contents accumulated by `msgs_pass` below: 10 face frames and
a client-asserted gesture — a buffer whose analysis passes. -/
def pass_buffer (cid : String) : ChallengeBufferState :=
  { attempt_id := "a", challenge_id := cid, challenge_type := "open-mouth"
    start_time := 0, frames := List.replicate 10 pass_frame
    total_expected_frames := 10, received_batches := 1, gesture_detected := true }

/-- The pass buffer indeed passes: rate 1 ≥ 0.7, quality 0.7 ≥ 0.6,
10 frames, gesture detected. -/
lemma pass_buffer_decision (cid : String) :
    make_challenge_decision (pass_buffer cid) (analyze_challenge_buffer 0 (pass_buffer cid)) =
      ⟨true, none⟩ := by
  norm_num [make_challenge_decision, analyze_challenge_buffer, pass_buffer, pass_frame,
    List.replicate_succ, List.filter, List.filterMap]

/-- A session with one completed challenge, an open prompt and a matching
pass buffer — the witness state for the counter-step theorem. -/
def session_c2w : Session :=
  { id := "s", token := "t", metrics := ⟨0, 0⟩
    fsm := { state := FsmState.Prompting "c1" ChallengeKind.OpenMouth
             completed := 1, failed := 0 }
    pad_state := PadState.default, tele := TelemetryState.default
    challenge_buffer := some (pass_buffer "x"), current_attempt_id := "a" }

/-- Witness for `challenge_end_and_feedback_counter_steps` at `session_c2w`:
the matching challenge-end moves `completed` to 2 (not terminal), while the
feedback path at the same count already terminates with `Passed`. -/
theorem challenge_end_and_feedback_counter_steps_witness :
    (process_challenge_end 0 session_c2w ⟨"a", "x", 0⟩).1.fsm.completed = 2 ∧
    (process_feedback 0 session_c2w ⟨none, none, some true⟩).1.fsm.completed = 2 ∧
    (process_feedback 0 session_c2w ⟨none, none, some true⟩).1.fsm.state =
      FsmState.Passed := by
  have h := challenge_end_and_feedback_counter_steps 0 0 session_c2w ⟨"a", "x", 0⟩
    (pass_buffer "x") ⟨none, none, some true⟩ "c1" ChallengeKind.OpenMouth
    rfl rfl rfl rfl rfl rfl rfl
  have hpass : (make_challenge_decision (pass_buffer "x")
      (analyze_challenge_buffer 0 (pass_buffer "x"))).passed = true := by
    rw [pass_buffer_decision]
  exact ⟨(h.1 hpass).1, h.2.2.1, h.2.2.2.mpr (by decide)⟩

/-- A challenge round that passes: start (gesture detected), one batch of 10
face frames, end — all under attempt id `a`. -/
def msgs_pass (cid : String) : List ClientMessage :=
  [ClientMessage.challengeStart
      { attempt_id := "a", challenge_id := cid, challenge_type := "open-mouth"
        start_time := 0, total_frames := 10, gesture_detected := true },
   ClientMessage.challengeFrameBatch
      { attempt_id := "a", challenge_id := cid, batch_index := 0
        frames := List.replicate 10 pass_frame },
   ClientMessage.challengeEnd { attempt_id := "a", challenge_id := cid, timestamp := 0 }]

/-- A challenge round that fails: start with no gesture, immediate end (the
empty buffer has face-detection rate 0) — all under attempt id `a`. -/
def msgs_fail (cid : String) : List ClientMessage :=
  [ClientMessage.challengeStart
      { attempt_id := "a", challenge_id := cid, challenge_type := "open-mouth"
        start_time := 0, total_frames := 0, gesture_detected := false },
   ClientMessage.challengeEnd { attempt_id := "a", challenge_id := cid, timestamp := 0 }]

/-- The session right after the handshake and initial prompt. -/
def prompted_session : Session :=
  { session0 with
    fsm := { state := FsmState.Prompting "c1" ChallengeKind.OpenMouth
             completed := 0, failed := 0 } }

/-- `prompted_session` is exactly what the handshake leaves in the mapping. -/
lemma prompted_session_reachable :
    (handle_handshake [session0] "s" "t").1 = [prompted_session] ∧
    (handle_handshake [session0] "s" "t").2.1 =
      [ServerMsg.helloAck, ServerMsg.prompt "c1" ChallengeKind.OpenMouth 5000 "a"] := by
  decide

end FacePro

namespace FacePro

/-- The buffer contents accumulated by `msgs_fail`: empty, no gesture. -/
def fail_buffer (cid : String) : ChallengeBufferState :=
  { attempt_id := "a", challenge_id := cid, challenge_type := "open-mouth"
    start_time := 0, frames := [], total_expected_frames := 0
    received_batches := 0, gesture_detected := false }

/-- The empty no-gesture buffer fails on the first criterion. -/
lemma fail_buffer_decision (cid : String) :
    make_challenge_decision (fail_buffer cid) (analyze_challenge_buffer 0 (fail_buffer cid)) =
      ⟨false, some "Taxa de detecção facial muito baixa"⟩ := by
  norm_num [make_challenge_decision, analyze_challenge_buffer, fail_buffer]

/-- `run_messages` distributes over list concatenation. -/
lemma run_messages_append {Img : Type} (env : PadEnv Img) (config : PadConfig)
    (b64 : String → Option (List Nat)) (s : Session) (l1 l2 : List ClientMessage) :
    run_messages env config b64 s (l1 ++ l2) =
      run_messages env config b64 (run_messages env config b64 s l1) l2 := by
  simp [run_messages, List.foldl_append]

/-- A passing round under attempt `a` reduces to advancing the FSM with a
passed decision. -/
lemma run_msgs_pass_eq (s : Session) (cid : String) (haid : s.current_attempt_id = "a") :
    run_messages env_decodable PadConfig.default b64_const50 s (msgs_pass cid) =
      (advance_fsm_after_decision { s with challenge_buffer := none }
        (⟨true, none⟩ : Decision)).1 := by
  have hdec := pass_buffer_decision cid
  simp only [pass_buffer, List.replicate_succ, List.replicate_zero] at hdec
  simp only [run_messages, msgs_pass, List.foldl_cons, List.foldl_nil, process_message]
  simp [process_challenge_start, process_challenge_frame_batch, process_challenge_end, haid]
  rw [hdec]

/-- A failing round under attempt `a` reduces to advancing the FSM with a
failed decision. -/
lemma run_msgs_fail_eq (s : Session) (cid : String) (haid : s.current_attempt_id = "a") :
    run_messages env_decodable PadConfig.default b64_const50 s (msgs_fail cid) =
      (advance_fsm_after_decision { s with challenge_buffer := none }
        (⟨false, some "Taxa de detecção facial muito baixa"⟩ : Decision)).1 := by
  have hdec := fail_buffer_decision cid
  simp only [fail_buffer] at hdec
  simp only [run_messages, msgs_fail, List.foldl_cons, List.foldl_nil, process_message]
  simp [process_challenge_start, process_challenge_end, haid]
  rw [hdec]

end FacePro

namespace FacePro

/-- C2 trajectory, after round 1 (fail). -/
def cx_s1 : Session :=
  { session0 with fsm := { state := FsmState.Prompting "c2" ChallengeKind.TurnRight
                           completed := 0, failed := 1 } }

/-- C2 trajectory, after round 2 (fail). -/
def cx_s2 : Session :=
  { session0 with fsm := { state := FsmState.Prompting "c3" ChallengeKind.HeadUp
                           completed := 0, failed := 2 } }

/-- C2 trajectory, after round 3 (pass). -/
def cx_s3 : Session :=
  { session0 with fsm := { state := FsmState.Prompting "c2" ChallengeKind.TurnLeft
                           completed := 1, failed := 2 } }

/-- C2 trajectory, after round 4 (pass): completed + failed = 4. -/
def cx_s4 : Session :=
  { session0 with fsm := { state := FsmState.Prompting "c3" ChallengeKind.HeadUp
                           completed := 2, failed := 2 } }

/-- C2 counterexample: from the freshly prompted session, under the single
attempt id `a`, four rounds resolving fail, fail, pass, pass leave the FSM
with `completed = 2` and `failed = 2` — the sum 4 exceeds 3 and the attempt
is still `Prompting` — because the pass branch never consults `failed`. -/
theorem completed_plus_failed_reaches_four :
    (run_messages env_decodable PadConfig.default b64_const50 prompted_session
        (msgs_fail "y1" ++ msgs_fail "y2" ++ msgs_pass "y3" ++ msgs_pass "y4")).fsm.completed
      = 2 ∧
    (run_messages env_decodable PadConfig.default b64_const50 prompted_session
        (msgs_fail "y1" ++ msgs_fail "y2" ++ msgs_pass "y3" ++ msgs_pass "y4")).fsm.failed
      = 2 ∧
    (run_messages env_decodable PadConfig.default b64_const50 prompted_session
        (msgs_fail "y1" ++ msgs_fail "y2" ++ msgs_pass "y3" ++ msgs_pass "y4")).fsm.state
      = FsmState.Prompting "c3" ChallengeKind.HeadUp := by
  have h1 : run_messages env_decodable PadConfig.default b64_const50 prompted_session
      (msgs_fail "y1") = cx_s1 := by
    rw [run_msgs_fail_eq prompted_session "y1" rfl]
    decide
  have h2 : run_messages env_decodable PadConfig.default b64_const50 cx_s1
      (msgs_fail "y2") = cx_s2 := by
    rw [run_msgs_fail_eq cx_s1 "y2" rfl]
    decide
  have h3 : run_messages env_decodable PadConfig.default b64_const50 cx_s2
      (msgs_pass "y3") = cx_s3 := by
    rw [run_msgs_pass_eq cx_s2 "y3" rfl]
    decide
  have h4 : run_messages env_decodable PadConfig.default b64_const50 cx_s3
      (msgs_pass "y4") = cx_s4 := by
    rw [run_msgs_pass_eq cx_s3 "y4" rfl]
    decide
  have hall : run_messages env_decodable PadConfig.default b64_const50 prompted_session
      (msgs_fail "y1" ++ msgs_fail "y2" ++ msgs_pass "y3" ++ msgs_pass "y4") = cx_s4 := by
    rw [run_messages_append, run_messages_append, run_messages_append, h1, h2, h3, h4]
  rw [hall]
  exact ⟨rfl, rfl, rfl⟩

end FacePro

namespace FacePro

/-- C1 trajectory, after round 1 (pass). -/
def tx_s1 : Session :=
  { session0 with fsm := { state := FsmState.Prompting "c2" ChallengeKind.TurnRight
                           completed := 1, failed := 0 } }

/-- C1 trajectory, after round 2 (pass). -/
def tx_s2 : Session :=
  { session0 with fsm := { state := FsmState.Prompting "c3" ChallengeKind.HeadUp
                           completed := 2, failed := 0 } }

/-- C1 trajectory, after round 3 (fail): the attempt is terminally Failed. -/
def tx_s3 : Session :=
  { session0 with fsm := { state := FsmState.Failed, completed := 2, failed := 1 } }

/-- C1 trajectory, after the post-terminal round 4 (pass, same attempt id):
the terminal decision has flipped to Passed. -/
def tx_s4 : Session :=
  { session0 with fsm := { state := FsmState.Passed, completed := 3, failed := 1 } }

/-- C1 counterexample: a reachable terminal `Failed` state (two passes, one
fail) is flipped to `Passed` by a `challenge-start` carrying the SAME
attempt id `a` followed by a matching passing `challenge-end` — the terminal
state is not preserved. -/
theorem terminal_failed_flipped_by_same_attempt_round :
    prompted_session.current_attempt_id = "a" ∧
    (run_messages env_decodable PadConfig.default b64_const50 prompted_session
        (msgs_pass "x1" ++ msgs_pass "x2" ++ msgs_fail "x3")).fsm.state = FsmState.Failed ∧
    (run_messages env_decodable PadConfig.default b64_const50 prompted_session
        ((msgs_pass "x1" ++ msgs_pass "x2" ++ msgs_fail "x3") ++ msgs_pass "x4")).fsm.state
      = FsmState.Passed := by
  have h1 : run_messages env_decodable PadConfig.default b64_const50 prompted_session
      (msgs_pass "x1") = tx_s1 := by
    rw [run_msgs_pass_eq prompted_session "x1" rfl]
    decide
  have h2 : run_messages env_decodable PadConfig.default b64_const50 tx_s1
      (msgs_pass "x2") = tx_s2 := by
    rw [run_msgs_pass_eq tx_s1 "x2" rfl]
    decide
  have h3 : run_messages env_decodable PadConfig.default b64_const50 tx_s2
      (msgs_fail "x3") = tx_s3 := by
    rw [run_msgs_fail_eq tx_s2 "x3" rfl]
    decide
  have h4 : run_messages env_decodable PadConfig.default b64_const50 tx_s3
      (msgs_pass "x4") = tx_s4 := by
    rw [run_msgs_pass_eq tx_s3 "x4" rfl]
    decide
  have hA : run_messages env_decodable PadConfig.default b64_const50 prompted_session
      (msgs_pass "x1" ++ msgs_pass "x2" ++ msgs_fail "x3") = tx_s3 := by
    rw [run_messages_append, run_messages_append, h1, h2, h3]
  have hB : run_messages env_decodable PadConfig.default b64_const50 prompted_session
      ((msgs_pass "x1" ++ msgs_pass "x2" ++ msgs_fail "x3") ++ msgs_pass "x4") = tx_s4 := by
    rw [run_messages_append, hA, h4]
  rw [hA, hB]
  exact ⟨rfl, rfl, rfl⟩

end FacePro

namespace FacePro

/-- C1 (amended): in a terminal state (`Passed` or `Failed`), telemetry,
feedback and challenge-frame-batch messages never change the FSM, and a
challenge-end with no active buffer leaves it unchanged as well; a
challenge-start whose attempt id differs from the session's current one
resets the FSM to `Idle` with `completed = failed = 0` and adopts the new
attempt id.  (A challenge-start with the SAME attempt id, however, opens a
fresh buffer, after which a matching challenge-end re-runs the analyzer and
can move the FSM out of the terminal state — see the flip counterexample.) -/
theorem terminal_fsm_unchanged {Img : Type} (env : PadEnv Img) (config : PadConfig)
    (b64 : String → Option (List Nat)) (rnd now : Nat) (s : Session)
    (tel : TelemetryMessage) (fb : FeedbackMessage)
    (batch : ChallengeFrameBatchMessage) (endm : ChallengeEndMessage)
    (startm : ChallengeStartMessage)
    (hterm : s.fsm.state = FsmState.Passed ∨ s.fsm.state = FsmState.Failed) :
    (process_message env config b64 rnd now s (ClientMessage.telemetry tel)).1.fsm = s.fsm ∧
    (process_message env config b64 rnd now s (ClientMessage.feedback fb)).1.fsm = s.fsm ∧
    (process_message env config b64 rnd now s
        (ClientMessage.challengeFrameBatch batch)).1.fsm = s.fsm ∧
    (s.challenge_buffer = none →
      (process_message env config b64 rnd now s
        (ClientMessage.challengeEnd endm)).1.fsm = s.fsm) ∧
    (s.current_attempt_id ≠ startm.attempt_id →
      (process_message env config b64 rnd now s
          (ClientMessage.challengeStart startm)).1.fsm = SessionFsm.new ∧
      (process_message env config b64 rnd now s
          (ClientMessage.challengeStart startm)).1.current_attempt_id = startm.attempt_id) := by
  refine ⟨?_, ?_, ?_, ?_, ?_⟩
  · rcases hterm with h | h <;>
      cases hms : tel.motion_score <;>
      simp [process_message, process_telemetry, hms, h]
  · rcases hterm with h | h <;> simp [process_message, process_feedback, h]
  · simp only [process_message, process_challenge_frame_batch]
    split
    · rfl
    · split
      · split <;> rfl
      · rfl
  · intro hbuf
    simp [process_message, process_challenge_end, hbuf]
  · intro hne
    simp [process_message, process_challenge_start, hne]

/-- A concrete terminal session for the witness. -/
def session_terminal : Session :=
  { session0 with fsm := { state := FsmState.Passed, completed := 3, failed := 0 } }

/-- Witness for `terminal_fsm_unchanged` at a concrete `Passed` session. -/
theorem terminal_fsm_unchanged_witness :
    (process_message env_decodable PadConfig.default b64_const50 0 0 session_terminal
        (ClientMessage.telemetry ⟨none⟩)).1.fsm = session_terminal.fsm ∧
    (process_message env_decodable PadConfig.default b64_const50 0 0 session_terminal
        (ClientMessage.feedback ⟨none, none, none⟩)).1.fsm = session_terminal.fsm ∧
    (process_message env_decodable PadConfig.default b64_const50 0 0 session_terminal
        (ClientMessage.challengeFrameBatch ⟨"a", "c9", 0, []⟩)).1.fsm = session_terminal.fsm ∧
    (process_message env_decodable PadConfig.default b64_const50 0 0 session_terminal
        (ClientMessage.challengeEnd ⟨"a", "c9", 0⟩)).1.fsm = session_terminal.fsm ∧
    (process_message env_decodable PadConfig.default b64_const50 0 0 session_terminal
        (ClientMessage.challengeStart ⟨"b", "c9", "open-mouth", 0, 0, false⟩)).1.fsm
      = SessionFsm.new ∧
    (process_message env_decodable PadConfig.default b64_const50 0 0 session_terminal
        (ClientMessage.challengeStart ⟨"b", "c9", "open-mouth", 0, 0, false⟩)).1.current_attempt_id
      = "b" := by
  have h := terminal_fsm_unchanged env_decodable PadConfig.default b64_const50 0 0
    session_terminal ⟨none⟩ ⟨none, none, none⟩ ⟨"a", "c9", 0, []⟩ ⟨"a", "c9", 0⟩
    ⟨"b", "c9", "open-mouth", 0, 0, false⟩ (Or.inl rfl)
  exact ⟨h.1, h.2.1, h.2.2.1, h.2.2.2.1 rfl, (h.2.2.2.2 (by decide)).1, (h.2.2.2.2 (by decide)).2⟩

end FacePro
